import Mathlib

/-!
Shallow embedding of the VoxBiz chat component
(src/Frontend/src/components/Chat.jsx) and proofs of the behavioural
claims made by the specification.

The component is a single React function component.  Its observable
session state consists of the message list, the input buffer and three
boolean flags (loading, isListening, isSpeaking); in addition we track
the state of the two browser engines the component drives: whether the
speech-recognition session is running, and how many utterances are
queued in the speech-synthesis engine (its `speaking` property is
`0 < synthQueue`).  Every event handler of the component becomes a pure
function from state to state, together with the observable outputs it
produces (HTTP requests issued, texts handed to speech synthesis,
alert dialogs shown).  The axios call is modelled by a `FetchResult`
environment value: a transport error (network failure or non-2xx, both
of which make axios throw) or a parsed response body whose fields may
each be absent, mirroring the optional chaining in the source.
-/

namespace VoxBiz

/-- Message objects pushed into the `messages` array: a role string and a
content string. -/
structure Message where
  role : String
  content : String
deriving DecidableEq, Repr

/-- Complete session state of the component, together with the state of the
two browser engines it drives.  `synthQueue` is the number of utterances
currently queued in the synthesis engine; the engine property read as
`speechSynthesisRef.current.speaking` is `0 < synthQueue`.  The two
availability booleans record whether the browser offers the corresponding
capability (they never change after mount). -/
structure ChatState where
  messages : List Message
  input : String
  loading : Bool
  isListening : Bool
  isSpeaking : Bool
  recognitionAvailable : Bool
  recognitionRunning : Bool
  synthAvailable : Bool
  synthQueue : Nat
deriving DecidableEq, Repr

/-- Fixed system instruction prepended to every request (SYSTEM_PROMPT in
Chat.jsx). -/
def SYSTEM_PROMPT : String :=
  "You are a business strategy assistant.\nYou must:\n✔ Provide data-driven business insights\n✔ Generate strategic plans and recommendations\n✔ Focus on trends, opportunities, risks, and KPIs\n✔ Tailor responses for startups, SMEs, or large enterprises\n\nYou must NOT:\n❌ Answer unrelated questions\n❌ Provide non-business content\n\nRespond strictly within business analysis, management, growth, and operational strategy."

/-- Placeholder appended when the response body lacks the expected text
field (the right operand of the JS `||`). -/
def noResponseText : String := "⚠ No response received."

/-- Fixed fallback appended on the catch path of sendMessage. -/
def errorMessage : String :=
  "⚠ Failed to fetch response. Please check your API key or try again later."

/-- Model of the JS String.prototype.trim used as `input.trim()`: removes
leading and trailing whitespace characters. -/
def jsTrim (s : String) : String :=
  String.mk (((s.data.dropWhile Char.isWhitespace).reverse.dropWhile Char.isWhitespace).reverse)

/-- Strip markdown emphasis characters, modelling
`text.replace(/[#*_]/g, "")`. -/
def stripMarkdown (s : String) : String :=
  String.mk (s.data.filter (fun c => !(c == '#' || c == '*' || c == '_')))

/-- One part of the outbound request body. -/
structure ReqPart where
  text : String
deriving DecidableEq, Repr

/-- One content entry of the outbound request body. -/
structure ReqContent where
  role : String
  parts : List ReqPart
deriving DecidableEq, Repr

/-- The outbound JSON request body posted to the generative-language
endpoint. -/
structure RequestBody where
  contents : List ReqContent
deriving DecidableEq, Repr

/-- The request body built in sendMessage for a given (already trimmed)
user message. -/
def geminiRequest (userMessage : String) : RequestBody :=
  { contents := [ReqContent.mk "user"
      [ReqPart.mk (SYSTEM_PROMPT ++ "\n\n" ++ userMessage ++ " ")]] }

/-- A part of a parsed response body; `text` may be absent. -/
structure GeminiPart where
  text : Option String
deriving DecidableEq, Repr

/-- Content of a response candidate; the `parts` array may be absent. -/
structure GeminiContent where
  parts : Option (List GeminiPart)
deriving DecidableEq, Repr

/-- A response candidate; its `content` field may be absent. -/
structure GeminiCandidate where
  content : Option GeminiContent
deriving DecidableEq, Repr

/-- A parsed 2xx response body; the `candidates` array may be absent.
Absent fields and empty arrays model every shape deviation the optional
chaining in the source can encounter. -/
structure GeminiResponse where
  candidates : Option (List GeminiCandidate)
deriving DecidableEq, Repr

/-- Outcome of the awaited axios call: either a throw (network error or
non-2xx status) caught by the catch block, or a parsed body. -/
inductive FetchResult where
  | transportError : FetchResult
  | success : GeminiResponse → FetchResult
deriving DecidableEq, Repr

/-- The optional chain
`response?.data?.candidates?.[0]?.content?.parts?.[0]?.text`:
returns the text of the first part of the first candidate when every
field on the path is present, and none otherwise. -/
def extractedText (r : GeminiResponse) : Option String :=
  match r.candidates with
  | some (c :: _) =>
    match c.content with
    | some ct =>
      match ct.parts with
      | some (p :: _) => p.text
      | _ => none
    | none => none
  | _ => none

/-- The value bound to `botResponse` in sendMessage: the extracted text,
except that the JS `||` replaces both an absent and an empty (falsy)
text by the fixed placeholder. -/
def botResponseOf (r : GeminiResponse) : String :=
  match extractedText r with
  | some t => if t = "" then noResponseText else t
  | none => noResponseText

/-- Result of an operation that may speak and may alert. -/
structure SpeakResult where
  state : ChatState
  spoken : List String
  alerts : List String
deriving DecidableEq, Repr

/-- speakText: alerts and does nothing when synthesis is unavailable;
otherwise cancels the engine queue if the engine is speaking, marks
isSpeaking, and queues the new utterance. -/
def speakText (text : String) (st : ChatState) : SpeakResult :=
  if st.synthAvailable = false then
    { state := st, spoken := [],
      alerts := ["Speech synthesis is not supported in your browser."] }
  else
    let canceled := if 0 < st.synthQueue then { st with synthQueue := 0 } else st
    { state := { canceled with isSpeaking := true, synthQueue := canceled.synthQueue + 1 },
      spoken := [text], alerts := [] }

/-- stopSpeaking: cancels the engine queue and clears isSpeaking, but only
when the engine handle exists and the engine is speaking; otherwise it
does nothing at all. -/
def stopSpeaking (st : ChatState) : ChatState :=
  if st.synthAvailable = true ∧ 0 < st.synthQueue then
    { st with synthQueue := 0, isSpeaking := false }
  else st

/-- toggleListening: alerts and does nothing when recognition is
unavailable; otherwise stops or starts the recognition session and flips
isListening. -/
def toggleListening (st : ChatState) : ChatState × List String :=
  if st.recognitionAvailable = false then
    (st, ["Speech recognition is not supported in your browser."])
  else if st.isListening = true then
    ({ st with recognitionRunning := false, isListening := false }, [])
  else
    ({ st with recognitionRunning := true, isListening := true }, [])

/-- The recognition onresult handler: the input buffer is set to the
join (empty separator) of the transcripts of the first alternative of
every current result segment. -/
def onresult (segments : List String) (st : ChatState) : ChatState :=
  { st with input := String.join segments }

/-- The recognition onerror handler: forces isListening to false. -/
def recognitionOnError (st : ChatState) : ChatState :=
  { st with isListening := false }

/-- The onend and onerror handlers of an utterance: the utterance leaves
the engine and isSpeaking is cleared. -/
def utteranceOnEnd (st : ChatState) : ChatState :=
  { st with isSpeaking := false, synthQueue := st.synthQueue - 1 }

/-- The unmount cleanup of the mount effect: stops the recognition session
when the handle exists, and cancels the synthesis engine when it exists
and is speaking.  No React state is written. -/
def cleanup (st : ChatState) : ChatState :=
  let st1 := if st.recognitionAvailable = true then
               { st with recognitionRunning := false } else st
  if st1.synthAvailable = true ∧ 0 < st1.synthQueue then
    { st1 with synthQueue := 0 }
  else st1

/-- State reached inside sendMessage after the three setState calls and
the listening shutdown, i.e. the state in force while the axios call is
awaited (the awaiting_response phase).  Only meaningful when the guard
passed. -/
def sendMessagePre (st : ChatState) : ChatState :=
  let userMessage := jsTrim st.input
  let st1 := { st with
    messages := st.messages ++ [Message.mk "user" userMessage],
    input := "",
    loading := true }
  if st1.isListening = true then (toggleListening st1).1 else st1

/-- Complete result of one sendMessage invocation: final state, the HTTP
requests issued, the texts handed to speech synthesis, and the alerts
raised. -/
structure TurnResult where
  state : ChatState
  requests : List RequestBody
  spoken : List String
  alerts : List String
deriving DecidableEq, Repr

/-- sendMessage: guarded no-op on empty trimmed input or while loading;
otherwise appends the user message, clears the input, sets loading, stops
listening, issues the request, appends the assistant message obtained
from the response (or the fixed error message on a transport error),
speaks it, and finally clears loading. -/
def sendMessage (st : ChatState) (res : FetchResult) : TurnResult :=
  if jsTrim st.input = "" ∨ st.loading = true then
    { state := st, requests := [], spoken := [], alerts := [] }
  else
    let userMessage := jsTrim st.input
    let newMessages := st.messages ++ [Message.mk "user" userMessage]
    let st2 := sendMessagePre st
    let preAlerts := if st.isListening = true ∧ st.recognitionAvailable = false then
                       ["Speech recognition is not supported in your browser."] else []
    let req := geminiRequest userMessage
    match res with
    | FetchResult.success r =>
      let botResponse := botResponseOf r
      let st3 := { st2 with messages := newMessages ++ [Message.mk "assistant" botResponse] }
      let sr := speakText (stripMarkdown botResponse) st3
      { state := { sr.state with loading := false },
        requests := [req], spoken := sr.spoken, alerts := preAlerts ++ sr.alerts }
    | FetchResult.transportError =>
      let st3 := { st2 with messages := newMessages ++ [Message.mk "assistant" errorMessage] }
      let sr := speakText errorMessage st3
      { state := { sr.state with loading := false },
        requests := [req], spoken := sr.spoken, alerts := preAlerts ++ sr.alerts }

/-- Discrete events the component can receive after mount. -/
inductive Event where
  | setInputEv (s : String)
  | submitEv (res : FetchResult)
  | toggleMicEv
  | speakMsgEv (text : String)
  | stopSpeakEv
  | recognitionResultEv (segments : List String)
  | recognitionErrorEv
  | utteranceEndEv
  | utteranceErrorEv
deriving DecidableEq, Repr

/-- Whether the event is a submit (the only event that runs
sendMessage). -/
def Event.isSubmit : Event → Bool
  | Event.submitEv _ => true
  | _ => false

/-- State transition of one event. -/
def stepState (e : Event) (st : ChatState) : ChatState :=
  match e with
  | Event.setInputEv s => { st with input := s }
  | Event.submitEv res => (sendMessage st res).state
  | Event.toggleMicEv => (toggleListening st).1
  | Event.speakMsgEv text =>
      if st.isSpeaking = true then stopSpeaking st
      else (speakText (stripMarkdown text) st).state
  | Event.stopSpeakEv => stopSpeaking st
  | Event.recognitionResultEv segs => onresult segs st
  | Event.recognitionErrorEv => recognitionOnError st
  | Event.utteranceEndEv => utteranceOnEnd st
  | Event.utteranceErrorEv => utteranceOnEnd st

/-- Freshly mounted component state, for each combination of browser
capabilities. -/
def initState (recogAvail synthAvail : Bool) : ChatState :=
  { messages := [], input := "", loading := false, isListening := false,
    isSpeaking := false, recognitionAvailable := recogAvail,
    recognitionRunning := false, synthAvailable := synthAvail, synthQueue := 0 }

/-- States reachable from mount by any sequence of events. -/
inductive Reachable : ChatState → Prop where
  | init (recogAvail synthAvail : Bool) : Reachable (initState recogAvail synthAvail)
  | step (e : Event) (st : ChatState) : Reachable st → Reachable (stepState e st)

/-! Helper lemmas shared by the claim theorems. -/

/-- Fields of the awaiting_response state: the user message has been
appended, the buffer cleared, loading set; the synthesis-related fields
and the message-independent fields are untouched (stopping the
recognition session only changes isListening and recognitionRunning). -/
theorem sendMessagePre_proj (st : ChatState) :
    (sendMessagePre st).messages = st.messages ++ [Message.mk "user" (jsTrim st.input)] ∧
    (sendMessagePre st).input = "" ∧
    (sendMessagePre st).loading = true ∧
    (sendMessagePre st).synthAvailable = st.synthAvailable ∧
    (sendMessagePre st).synthQueue = st.synthQueue := by
  unfold sendMessagePre toggleListening
  rcases Bool.eq_false_or_eq_true st.isListening with hL | hL <;>
    rcases Bool.eq_false_or_eq_true st.recognitionAvailable with hR | hR <;>
      simp [hL, hR]

/-- Projections of speakText: the message list, input buffer and loading
flag are never touched; with synthesis available the text is spoken, the
queue holds exactly the new utterance and isSpeaking is set; without it
nothing changes. -/
theorem speakText_proj (text : String) (st : ChatState) :
    (speakText text st).state.messages = st.messages ∧
    (speakText text st).state.input = st.input ∧
    (speakText text st).state.loading = st.loading ∧
    (st.synthAvailable = true →
      (speakText text st).spoken = [text] ∧
      (speakText text st).state.synthQueue = 1 ∧
      (speakText text st).state.isSpeaking = true) ∧
    (st.synthAvailable = false → speakText text st
        = { state := st, spoken := [],
            alerts := ["Speech synthesis is not supported in your browser."] }) := by
  unfold speakText
  rcases Bool.eq_false_or_eq_true st.synthAvailable with hA | hA
  · by_cases hQ : 0 < st.synthQueue
    · simp [hA, hQ]
    · have h0 : st.synthQueue = 0 := Nat.eq_zero_of_not_pos hQ
      simp [hA, hQ, h0]
  · simp [hA]

/-- speakText never changes the message list. -/
theorem speakText_state_messages (text : String) (st : ChatState) :
    (speakText text st).state.messages = st.messages :=
  (speakText_proj text st).1

/-- speakText never changes the input buffer. -/
theorem speakText_state_input (text : String) (st : ChatState) :
    (speakText text st).state.input = st.input :=
  (speakText_proj text st).2.1

/-- speakText never changes the loading flag. -/
theorem speakText_state_loading (text : String) (st : ChatState) :
    (speakText text st).state.loading = st.loading :=
  (speakText_proj text st).2.2.1

/-- With synthesis available, speakText hands exactly its text to the
engine. -/
theorem speakText_spoken (text : String) (st : ChatState)
    (h : st.synthAvailable = true) : (speakText text st).spoken = [text] :=
  ((speakText_proj text st).2.2.2.1 h).1

/-- With synthesis available, the engine queue holds exactly the new
utterance after speakText. -/
theorem speakText_queue_one (text : String) (st : ChatState)
    (h : st.synthAvailable = true) : (speakText text st).state.synthQueue = 1 :=
  ((speakText_proj text st).2.2.2.1 h).2.1

/-- With synthesis available, speakText sets isSpeaking. -/
theorem speakText_isSpeaking (text : String) (st : ChatState)
    (h : st.synthAvailable = true) : (speakText text st).state.isSpeaking = true :=
  ((speakText_proj text st).2.2.2.1 h).2.2

/-- Without synthesis, speakText only alerts. -/
theorem speakText_not_avail (text : String) (st : ChatState)
    (h : st.synthAvailable = false) :
    speakText text st
      = { state := st, spoken := [],
          alerts := ["Speech synthesis is not supported in your browser."] } :=
  (speakText_proj text st).2.2.2.2 h

/-- Message list of the awaiting_response state. -/
theorem sendMessagePre_messages (st : ChatState) :
    (sendMessagePre st).messages = st.messages ++ [Message.mk "user" (jsTrim st.input)] :=
  (sendMessagePre_proj st).1

/-- Input buffer of the awaiting_response state. -/
theorem sendMessagePre_input (st : ChatState) : (sendMessagePre st).input = "" :=
  (sendMessagePre_proj st).2.1

/-- Loading flag of the awaiting_response state. -/
theorem sendMessagePre_loading (st : ChatState) : (sendMessagePre st).loading = true :=
  (sendMessagePre_proj st).2.2.1

/-- Synthesis availability is untouched while awaiting. -/
theorem sendMessagePre_synthAvailable (st : ChatState) :
    (sendMessagePre st).synthAvailable = st.synthAvailable :=
  (sendMessagePre_proj st).2.2.2.1

/-- Synthesis queue is untouched while awaiting. -/
theorem sendMessagePre_synthQueue (st : ChatState) :
    (sendMessagePre st).synthQueue = st.synthQueue :=
  (sendMessagePre_proj st).2.2.2.2

/-- sendMessage is the identity turn when the guard rejects. -/
theorem sendMessage_noop_of_guard (st : ChatState) (res : FetchResult)
    (h : jsTrim st.input = "" ∨ st.loading = true) :
    sendMessage st res = { state := st, requests := [], spoken := [], alerts := [] } := by
  unfold sendMessage
  rw [if_pos h]

/-- Unfolded success path of sendMessage when the guard passes: exact
final message list, cleared buffer, cleared loading flag, the single
request issued, and the spoken text. -/
theorem sendMessage_success_proj (st : ChatState) (r : GeminiResponse)
    (hne : jsTrim st.input ≠ "") (hl : st.loading = false) :
    (sendMessage st (FetchResult.success r)).state.messages
        = st.messages ++ [Message.mk "user" (jsTrim st.input),
                          Message.mk "assistant" (botResponseOf r)] ∧
    (sendMessage st (FetchResult.success r)).state.input = "" ∧
    (sendMessage st (FetchResult.success r)).state.loading = false ∧
    (sendMessage st (FetchResult.success r)).requests = [geminiRequest (jsTrim st.input)] ∧
    (st.synthAvailable = true →
      (sendMessage st (FetchResult.success r)).spoken
        = [stripMarkdown (botResponseOf r)]) := by
  have hg : ¬(jsTrim st.input = "" ∨ st.loading = true) := by simp [hne, hl]
  unfold sendMessage
  rw [if_neg hg]
  refine ⟨?_, ?_, ?_, ?_, ?_⟩
  · simp [speakText_state_messages]
  · simp [speakText_state_input, sendMessagePre_input]
  · rfl
  · rfl
  · intro hA
    simp [speakText_spoken, sendMessagePre_synthAvailable, hA]

/-- Unfolded catch path of sendMessage when the guard passes: the fixed
error message is appended and spoken. -/
theorem sendMessage_error_proj (st : ChatState)
    (hne : jsTrim st.input ≠ "") (hl : st.loading = false) :
    (sendMessage st FetchResult.transportError).state.messages
        = st.messages ++ [Message.mk "user" (jsTrim st.input),
                          Message.mk "assistant" errorMessage] ∧
    (sendMessage st FetchResult.transportError).state.input = "" ∧
    (sendMessage st FetchResult.transportError).state.loading = false ∧
    (sendMessage st FetchResult.transportError).requests = [geminiRequest (jsTrim st.input)] ∧
    (st.synthAvailable = true →
      (sendMessage st FetchResult.transportError).spoken = [errorMessage]) := by
  have hg : ¬(jsTrim st.input = "" ∨ st.loading = true) := by simp [hne, hl]
  unfold sendMessage
  rw [if_neg hg]
  refine ⟨?_, ?_, ?_, ?_, ?_⟩
  · simp [speakText_state_messages]
  · simp [speakText_state_input, sendMessagePre_input]
  · rfl
  · rfl
  · intro hA
    simp [speakText_spoken, sendMessagePre_synthAvailable, hA]

/-- The loading flag is false after every completed turn that passed the
guard, whatever the fetch outcome. -/
theorem sendMessage_final_loading (st : ChatState) (res : FetchResult)
    (hne : jsTrim st.input ≠ "") (hl : st.loading = false) :
    (sendMessage st res).state.loading = false := by
  cases res with
  | transportError => exact (sendMessage_error_proj st hne hl).2.2.1
  | success r => exact (sendMessage_success_proj st r hne hl).2.2.1

/-- A turn never leaves more than one utterance in the synthesis
engine. -/
theorem sendMessage_synthQueue_le (st : ChatState) (res : FetchResult)
    (h : st.synthQueue ≤ 1) : (sendMessage st res).state.synthQueue ≤ 1 := by
  by_cases hg : jsTrim st.input = "" ∨ st.loading = true
  · rw [sendMessage_noop_of_guard st res hg]
    exact h
  · cases res with
    | success r =>
        unfold sendMessage
        rw [if_neg hg]
        by_cases hA : st.synthAvailable = true
        · simp [speakText_queue_one, sendMessagePre_synthAvailable, hA]
        · simp only [Bool.not_eq_true] at hA
          simp [speakText_not_avail, sendMessagePre_synthAvailable, hA,
                sendMessagePre_synthQueue, h]
    | transportError =>
        unfold sendMessage
        rw [if_neg hg]
        by_cases hA : st.synthAvailable = true
        · simp [speakText_queue_one, sendMessagePre_synthAvailable, hA]
        · simp only [Bool.not_eq_true] at hA
          simp [speakText_not_avail, sendMessagePre_synthAvailable, hA,
                sendMessagePre_synthQueue, h]

/-- stopSpeaking never touches the loading flag. -/
theorem stopSpeaking_loading (st : ChatState) :
    (stopSpeaking st).loading = st.loading := by
  unfold stopSpeaking
  split <;> rfl

/-- toggleListening never touches the loading flag. -/
theorem toggleListening_loading (st : ChatState) :
    (toggleListening st).1.loading = st.loading := by
  unfold toggleListening
  rcases Bool.eq_false_or_eq_true st.recognitionAvailable with hR | hR <;>
    rcases Bool.eq_false_or_eq_true st.isListening with hL | hL <;> simp [hR, hL]

/-- toggleListening never touches the synthesis queue. -/
theorem toggleListening_synthQueue (st : ChatState) :
    (toggleListening st).1.synthQueue = st.synthQueue := by
  unfold toggleListening
  rcases Bool.eq_false_or_eq_true st.recognitionAvailable with hR | hR <;>
    rcases Bool.eq_false_or_eq_true st.isListening with hL | hL <;> simp [hR, hL]

/-- Every event preserves the single-utterance bound on the synthesis
engine queue. -/
theorem stepState_synthQueue_le (e : Event) (st : ChatState)
    (h : st.synthQueue ≤ 1) : (stepState e st).synthQueue ≤ 1 := by
  cases e with
  | setInputEv s => exact h
  | submitEv res => exact sendMessage_synthQueue_le st res h
  | toggleMicEv =>
      show (toggleListening st).1.synthQueue ≤ 1
      rw [toggleListening_synthQueue]
      exact h
  | speakMsgEv t =>
      show (if st.isSpeaking = true then stopSpeaking st
            else (speakText (stripMarkdown t) st).state).synthQueue ≤ 1
      by_cases hS : st.isSpeaking = true
      · rw [if_pos hS]
        unfold stopSpeaking
        split
        · exact Nat.zero_le 1
        · exact h
      · rw [if_neg hS]
        by_cases hA : st.synthAvailable = true
        · rw [speakText_queue_one _ _ hA]
        · simp only [Bool.not_eq_true] at hA
          rw [speakText_not_avail _ _ hA]
          exact h
  | stopSpeakEv =>
      show (stopSpeaking st).synthQueue ≤ 1
      unfold stopSpeaking
      split
      · exact Nat.zero_le 1
      · exact h
  | recognitionResultEv segs => exact h
  | recognitionErrorEv => exact h
  | utteranceEndEv => exact Nat.le_trans (Nat.sub_le _ _) h
  | utteranceErrorEv => exact Nat.le_trans (Nat.sub_le _ _) h

/-- Every reachable state keeps at most one utterance in the synthesis
engine. -/
theorem reachable_synthQueue_le_one (st : ChatState) (h : Reachable st) :
    st.synthQueue ≤ 1 := by
  induction h with
  | init a b => exact Nat.zero_le 1
  | step e st h ih => exact stepState_synthQueue_le e st ih

/-! Concrete fixtures used by the witnesses. -/

/-- Freshly mounted state, both capabilities available, with a typed
input (the scenario of testable property 7 of the spec). -/
def sampleState : ChatState :=
  { initState true true with input := "What is our Q3 growth rate?" }

/-- Well-formed response body of the same scenario. -/
def sampleResponse : GeminiResponse :=
  { candidates := some [GeminiCandidate.mk (some (GeminiContent.mk
      (some [GeminiPart.mk (some "Q3 growth was 12%.")])))] }

/-! Claim theorems. -/

/-- C1: on a submit of non-empty, non-whitespace input while no request is
in flight, a successful inference appends exactly two messages, first the
user message with the trimmed input and then the assistant message with
the extracted response text; the input buffer is cleared and loading is
false at the end of the turn. -/
theorem submit_success_turn (st : ChatState) (r : GeminiResponse)
    (hne : jsTrim st.input ≠ "") (hl : st.loading = false) :
    (sendMessage st (FetchResult.success r)).state.messages
        = st.messages ++ [Message.mk "user" (jsTrim st.input),
                          Message.mk "assistant" (botResponseOf r)] ∧
    (sendMessage st (FetchResult.success r)).state.input = "" ∧
    (sendMessage st (FetchResult.success r)).state.loading = false := by
  obtain ⟨h1, h2, h3, _, _⟩ := sendMessage_success_proj st r hne hl
  exact ⟨h1, h2, h3⟩

/-- Witness for C1 at the concrete scenario of testable property 7. -/
theorem submit_success_turn_witness :
    (sendMessage sampleState (FetchResult.success sampleResponse)).state.messages
        = sampleState.messages ++ [Message.mk "user" (jsTrim sampleState.input),
                                   Message.mk "assistant" (botResponseOf sampleResponse)] ∧
    (sendMessage sampleState (FetchResult.success sampleResponse)).state.input = "" ∧
    (sendMessage sampleState (FetchResult.success sampleResponse)).state.loading = false :=
  submit_success_turn sampleState sampleResponse (by decide) rfl

/-- C3: submit is a complete no-op when the trimmed input is empty or a
request is already in flight: the whole turn result is the unchanged
state with no request issued, nothing spoken and no alert. -/
theorem submit_noop (st : ChatState) (res : FetchResult)
    (h : jsTrim st.input = "" ∨ st.loading = true) :
    sendMessage st res = { state := st, requests := [], spoken := [], alerts := [] } :=
  sendMessage_noop_of_guard st res h

/-- Witness for C3 on whitespace-only input. -/
theorem submit_noop_witness :
    sendMessage { initState true true with input := "   " } FetchResult.transportError
      = { state := { initState true true with input := "   " },
          requests := [], spoken := [], alerts := [] } :=
  submit_noop _ _ (Or.inl (by decide))

/-- C7: every recognition result event overwrites the input buffer with
the join (no separator) of the transcripts of all current segments,
independent of the previous buffer contents; after events with segment
lists s1 then s2 the buffer is the join of s2. -/
theorem onresult_overwrites (st : ChatState) (s1 s2 : List String) :
    (onresult s2 (onresult s1 st)).input = String.join s2 ∧
    (onresult s2 st).input = String.join s2 := by
  constructor <;> rfl

/-- C9: stopSpeaking when the engine is idle changes nothing at all,
stopSpeaking is idempotent, and the unmount cleanup is idempotent. -/
theorem stop_speaking_idempotent (st : ChatState) :
    (st.synthQueue = 0 → stopSpeaking st = st) ∧
    stopSpeaking (stopSpeaking st) = stopSpeaking st ∧
    cleanup (cleanup st) = cleanup st := by
  refine ⟨?_, ?_, ?_⟩
  · intro h0
    unfold stopSpeaking
    rw [if_neg]
    simp [h0]
  · unfold stopSpeaking
    by_cases hc : st.synthAvailable = true ∧ 0 < st.synthQueue
    · rw [if_pos hc, if_neg]
      simp
    · rw [if_neg hc, if_neg hc]
  · unfold cleanup
    rcases Bool.eq_false_or_eq_true st.recognitionAvailable with hR | hR <;>
      by_cases hq : st.synthAvailable = true ∧ 0 < st.synthQueue <;>
        simp [hR, hq]

/-- Witness for C9 at the freshly mounted state. -/
theorem stop_speaking_idempotent_witness :
    stopSpeaking (initState true true) = initState true true ∧
    stopSpeaking (stopSpeaking (initState true true)) = stopSpeaking (initState true true) ∧
    cleanup (cleanup (initState true true)) = cleanup (initState true true) := by
  obtain ⟨h1, h2, h3⟩ := stop_speaking_idempotent (initState true true)
  exact ⟨h1 rfl, h2, h3⟩

/-- State with input "hi" used by the failure-path fixtures. -/
def hiState : ChatState := { initState true true with input := "hi" }

/-- Response body whose candidates field is absent: a shape-malformed
body. -/
def emptyBody : GeminiResponse := { candidates := none }

/-- Response whose first part text is present but the empty string. -/
def emptyTextResponse : GeminiResponse :=
  { candidates := some [GeminiCandidate.mk (some (GeminiContent.mk
      (some [GeminiPart.mk (some "")])))] }

/-- C4: a guard-passing submit has loading true while awaiting the
response, issues exactly one request, rejects a second submit during that
phase as a complete no-op with no request, ends with loading false on
every completion path, and no event other than a submit changes the
loading flag. -/
theorem single_flight_loading (st : ChatState) (res : FetchResult)
    (hne : jsTrim st.input ≠ "") (hl : st.loading = false) :
    (sendMessagePre st).loading = true ∧
    (sendMessage st res).requests = [geminiRequest (jsTrim st.input)] ∧
    (∀ res2 : FetchResult, sendMessage (sendMessagePre st) res2
        = { state := sendMessagePre st, requests := [], spoken := [], alerts := [] }) ∧
    (sendMessage st res).state.loading = false ∧
    (∀ e : Event, e.isSubmit = false → (stepState e st).loading = st.loading) := by
  refine ⟨sendMessagePre_loading st, ?_, ?_,
          sendMessage_final_loading st res hne hl, ?_⟩
  · cases res with
    | success r => exact (sendMessage_success_proj st r hne hl).2.2.2.1
    | transportError => exact (sendMessage_error_proj st hne hl).2.2.2.1
  · intro res2
    exact sendMessage_noop_of_guard _ res2 (Or.inr (sendMessagePre_loading st))
  · intro e he
    cases e with
    | setInputEv s => rfl
    | submitEv r => simp [Event.isSubmit] at he
    | toggleMicEv => exact toggleListening_loading st
    | speakMsgEv t =>
        show (if st.isSpeaking = true then stopSpeaking st
              else (speakText (stripMarkdown t) st).state).loading = st.loading
        by_cases hS : st.isSpeaking = true
        · rw [if_pos hS, stopSpeaking_loading]
        · rw [if_neg hS, speakText_state_loading]
    | stopSpeakEv => exact stopSpeaking_loading st
    | recognitionResultEv segs => rfl
    | recognitionErrorEv => rfl
    | utteranceEndEv => rfl
    | utteranceErrorEv => rfl

/-- Witness for C4 at the concrete scenario state. -/
theorem single_flight_loading_witness :
    (sendMessagePre sampleState).loading = true ∧
    (sendMessage sampleState (FetchResult.success sampleResponse)).requests
        = [geminiRequest (jsTrim sampleState.input)] ∧
    sendMessage (sendMessagePre sampleState) FetchResult.transportError
        = { state := sendMessagePre sampleState,
            requests := [], spoken := [], alerts := [] } ∧
    (sendMessage sampleState (FetchResult.success sampleResponse)).state.loading = false ∧
    (stepState Event.toggleMicEv sampleState).loading = sampleState.loading := by
  obtain ⟨h1, h2, h3, h4, h5⟩ :=
    single_flight_loading sampleState (FetchResult.success sampleResponse) (by decide) rfl
  exact ⟨h1, h2, h3 FetchResult.transportError, h4, h5 Event.toggleMicEv rfl⟩

/-- C5: every guard-passing submit issues exactly one request whose body is
one user content with one part holding the system prompt, two newlines,
the trimmed user text and a trailing space; the body does not depend on
the message history. -/
theorem request_body_exact (st : ChatState) (res : FetchResult)
    (hne : jsTrim st.input ≠ "") (hl : st.loading = false) :
    (sendMessage st res).requests
        = [RequestBody.mk [ReqContent.mk "user"
            [ReqPart.mk (SYSTEM_PROMPT ++ "\n\n" ++ jsTrim st.input ++ " ")]]] ∧
    (∀ msgs : List Message,
      (sendMessage { st with messages := msgs } res).requests
        = (sendMessage st res).requests) := by
  have hget : ∀ st2 : ChatState, jsTrim st2.input ≠ "" → st2.loading = false →
      (sendMessage st2 res).requests = [geminiRequest (jsTrim st2.input)] := by
    intro st2 h1 h2
    cases res with
    | success r => exact (sendMessage_success_proj st2 r h1 h2).2.2.2.1
    | transportError => exact (sendMessage_error_proj st2 h1 h2).2.2.2.1
  constructor
  · rw [hget st hne hl]
    rfl
  · intro msgs
    rw [hget st hne hl, hget { st with messages := msgs } hne hl]

/-- Witness for C5: the request body at the concrete scenario state, and
its independence from a non-empty history. -/
theorem request_body_exact_witness :
    (sendMessage sampleState FetchResult.transportError).requests
        = [RequestBody.mk [ReqContent.mk "user"
            [ReqPart.mk (SYSTEM_PROMPT ++ "\n\n" ++ jsTrim sampleState.input ++ " ")]]] ∧
    (sendMessage { sampleState with messages := [Message.mk "user" "earlier"] }
        FetchResult.transportError).requests
      = (sendMessage sampleState FetchResult.transportError).requests := by
  obtain ⟨h1, h2⟩ := request_body_exact sampleState FetchResult.transportError (by decide) rfl
  exact ⟨h1, h2 [Message.mk "user" "earlier"]⟩

/-- C2 counterexample: a fetch that completes with a shape-malformed body
appends the placeholder assistant message and speaks it; it does not
produce the fixed "Failed to fetch response" message the claim asserts
for malformed shapes. -/
theorem shape_failure_counterexample :
    (sendMessage hiState (FetchResult.success emptyBody)).state.messages
        = [Message.mk "user" "hi", Message.mk "assistant" noResponseText] ∧
    (sendMessage hiState (FetchResult.success emptyBody)).spoken = [noResponseText] ∧
    noResponseText ≠ errorMessage := by decide

/-- C2 amended: only transport failures (network error or non-2xx, which
make the awaited call throw) produce the fixed failure message, appended
after the single user message and passed to speech output; a body
malformed in shape instead yields the placeholder assistant message
through the success path. -/
theorem transport_failure_fixed_message (st : ChatState)
    (hne : jsTrim st.input ≠ "") (hl : st.loading = false) :
    (sendMessage st FetchResult.transportError).state.messages
        = st.messages ++ [Message.mk "user" (jsTrim st.input),
                          Message.mk "assistant" errorMessage] ∧
    (st.synthAvailable = true →
      (sendMessage st FetchResult.transportError).spoken = [errorMessage]) ∧
    (∀ r : GeminiResponse, extractedText r = none →
      (sendMessage st (FetchResult.success r)).state.messages
        = st.messages ++ [Message.mk "user" (jsTrim st.input),
                          Message.mk "assistant" noResponseText]) := by
  obtain ⟨h1, _, _, _, h5⟩ := sendMessage_error_proj st hne hl
  refine ⟨h1, h5, ?_⟩
  intro r hr
  have hb : botResponseOf r = noResponseText := by
    unfold botResponseOf
    rw [hr]
  rw [(sendMessage_success_proj st r hne hl).1, hb]

/-- Witness for the amended C2 on both failure kinds. -/
theorem transport_failure_fixed_message_witness :
    (sendMessage hiState FetchResult.transportError).state.messages
        = hiState.messages ++ [Message.mk "user" (jsTrim hiState.input),
                               Message.mk "assistant" errorMessage] ∧
    (sendMessage hiState FetchResult.transportError).spoken = [errorMessage] ∧
    (sendMessage hiState (FetchResult.success emptyBody)).state.messages
        = hiState.messages ++ [Message.mk "user" (jsTrim hiState.input),
                               Message.mk "assistant" noResponseText] := by
  obtain ⟨h1, h2, h3⟩ := transport_failure_fixed_message hiState (by decide) rfl
  exact ⟨h1, h2 rfl, h3 emptyBody rfl⟩

/-- C6 counterexample: a response whose first part text is present but
empty gets the placeholder as appended assistant content, not that text,
so the appended content is not always the first part text. -/
theorem extraction_counterexample :
    extractedText emptyTextResponse = some "" ∧
    (sendMessage hiState (FetchResult.success emptyTextResponse)).state.messages
        = [Message.mk "user" "hi", Message.mk "assistant" noResponseText] ∧
    noResponseText ≠ "" := by decide

/-- C6 amended: for every fetch that completes without a transport error,
when the first part text of the first candidate is present and non-empty it is
the appended assistant content; when any field on the path is absent the
fixed placeholder is appended, still through the success path (it is not
the failure message). -/
theorem extraction_spec (st : ChatState) (r : GeminiResponse)
    (hne : jsTrim st.input ≠ "") (hl : st.loading = false) :
    (∀ t : String, extractedText r = some t → t ≠ "" →
      (sendMessage st (FetchResult.success r)).state.messages
        = st.messages ++ [Message.mk "user" (jsTrim st.input),
                          Message.mk "assistant" t]) ∧
    (extractedText r = none →
      (sendMessage st (FetchResult.success r)).state.messages
        = st.messages ++ [Message.mk "user" (jsTrim st.input),
                          Message.mk "assistant" noResponseText]) ∧
    noResponseText ≠ errorMessage := by
  have hmsg := (sendMessage_success_proj st r hne hl).1
  refine ⟨?_, ?_, by decide⟩
  · intro t ht htne
    have hb : botResponseOf r = t := by
      unfold botResponseOf
      rw [ht]
      simp [htne]
    rw [hmsg, hb]
  · intro hnone
    have hb : botResponseOf r = noResponseText := by
      unfold botResponseOf
      rw [hnone]
    rw [hmsg, hb]

/-- Witness for the amended C6 on a present non-empty text and on an
absent field. -/
theorem extraction_spec_witness :
    (sendMessage sampleState (FetchResult.success sampleResponse)).state.messages
        = sampleState.messages ++ [Message.mk "user" (jsTrim sampleState.input),
                                   Message.mk "assistant" "Q3 growth was 12%."] ∧
    (sendMessage sampleState (FetchResult.success emptyBody)).state.messages
        = sampleState.messages ++ [Message.mk "user" (jsTrim sampleState.input),
                                   Message.mk "assistant" noResponseText] :=
  ⟨(extraction_spec sampleState sampleResponse (by decide) rfl).1
      "Q3 growth was 12%." rfl (by decide),
   (extraction_spec sampleState emptyBody (by decide) rfl).2.1 rfl⟩

/-- C8: with synthesis present and a reachable state, the engine holds at
most one utterance, and speakText leaves exactly the new utterance in the
engine (an already playing one is cancelled first) with the speaking flag
set. -/
theorem speak_single_utterance (st : ChatState) (text : String)
    (h : Reachable st) (hA : st.synthAvailable = true) :
    st.synthQueue ≤ 1 ∧
    (speakText text st).state.synthQueue = 1 ∧
    (speakText text st).state.isSpeaking = true :=
  ⟨reachable_synthQueue_le_one st h,
   speakText_queue_one text st hA,
   speakText_isSpeaking text st hA⟩

/-- Witness for C8 at the freshly mounted state. -/
theorem speak_single_utterance_witness :
    (initState true true).synthQueue ≤ 1 ∧
    (speakText "hello" (initState true true)).state.synthQueue = 1 ∧
    (speakText "hello" (initState true true)).state.isSpeaking = true :=
  speak_single_utterance (initState true true) "hello" (Reachable.init true true) rfl

/-- C10: a well-formed response whose first part text is present but equal
to the empty string yields the placeholder as assistant content, because
the JS truthiness test treats the empty string like an absent field. -/
theorem empty_text_placeholder (st : ChatState) (r : GeminiResponse)
    (hne : jsTrim st.input ≠ "") (hl : st.loading = false)
    (ht : extractedText r = some "") :
    botResponseOf r = noResponseText ∧
    (sendMessage st (FetchResult.success r)).state.messages
        = st.messages ++ [Message.mk "user" (jsTrim st.input),
                          Message.mk "assistant" noResponseText] := by
  have hb : botResponseOf r = noResponseText := by
    unfold botResponseOf
    rw [ht]
    simp
  refine ⟨hb, ?_⟩
  rw [(sendMessage_success_proj st r hne hl).1, hb]

/-- Witness for C10 at the concrete empty-text response. -/
theorem empty_text_placeholder_witness :
    botResponseOf emptyTextResponse = noResponseText ∧
    (sendMessage hiState (FetchResult.success emptyTextResponse)).state.messages
        = hiState.messages ++ [Message.mk "user" (jsTrim hiState.input),
                               Message.mk "assistant" noResponseText] :=
  empty_text_placeholder hiState emptyTextResponse (by decide) rfl rfl

end VoxBiz
